import Mathlib

/-
Verification of the EcoBuild impact-assessment engine.

Shallow embedding of the pipeline in `src/main.py` and the data model in
`src/models.py`.  Python floats are modelled as exact rationals (ℚ); the
trigonometric great-circle distance (`haversine`) is modelled over ℝ.
Python's `round(x, n)` (round half to even on the scaled value) is
modelled by `pyRound`; Python's `int(x)` (truncation toward zero) by
`pyInt`.  The pandas reference tables `CITIES_DB` and `SENSITIVE_LOCS`,
which are each either loaded or `None` after the startup `try/except`,
are modelled as `Option` lists passed to the functions that read them.
-/

namespace EcoBuild

/-- Python `int(x)`: truncation toward zero. -/
def pyInt (q : ℚ) : ℤ := if q < 0 then ⌈q⌉ else ⌊q⌋

/-- Round to the nearest integer, halves to even (Python `round` on an
exact value). -/
def roundHalfEven (q : ℚ) : ℤ :=
  if q - ⌊q⌋ < 1/2 then ⌊q⌋
  else if 1/2 < q - ⌊q⌋ then ⌊q⌋ + 1
  else if ⌊q⌋ % 2 = 0 then ⌊q⌋ else ⌊q⌋ + 1

/-- Python `round(x, d)` on an exact rational value. -/
def pyRound (q : ℚ) (d : ℕ) : ℚ := (roundHalfEven (q * 10 ^ d) : ℚ) / 10 ^ d

/-- One row of `data/cities_aqi.csv` after the `city_lower`
normalization column is added (src/main.py line 37). -/
structure CityRecord where
  city_lower : String
  latitude : ℚ
  longitude : ℚ
  pm25 : ℚ
  no2 : ℚ
  so2 : ℚ
  co_mg_m3 : ℚ
  o3 : ℚ
deriving DecidableEq

/-- One row of `data/sensitive_locations.csv`. -/
structure SensitiveZone where
  name : String
  category : String
  lat : ℚ
  lng : ℚ
deriving DecidableEq

/-- `UserInput` from src/models.py lines 4-36. -/
structure UserInput where
  city : String
  project_type : String := "Residential"
  land_area_m2 : ℚ
  built_up_area_m2 : ℚ
  floors : ℤ
  daily_water_m3 : ℚ
  daily_waste_kg : ℚ
  hazardous_waste_kg_per_month : ℚ
  vehicles_per_day : ℤ
  fuel_consumption_l_per_day : ℚ
  dg_hours_per_day : ℚ
  distance_to_residential_m : ℚ
  distance_to_water_body_km : ℚ
  vegetation_removed_percent : ℚ := 0
  green_area_percent : ℚ := 0
  has_rainwater_harvesting : ℤ := 0
  has_solar : ℤ := 0
  energy_efficient_lighting : ℤ := 0
  waste_segregation : ℤ := 0
  stp_present : ℤ := 0
deriving DecidableEq

/-- `EnrichedProjectInput` from src/models.py lines 38-79.  Note the
model declares no latitude/longitude fields: the resolved coordinates
are used only inside `enrich_data` for the proximity check. -/
structure EnrichedProjectInput where
  land_area_m2 : ℚ
  built_up_area_m2 : ℚ
  floors : ℤ
  daily_water_m3 : ℚ
  daily_waste_kg : ℚ
  hazardous_waste_kg_per_month : ℚ
  vehicles_per_day : ℤ
  fuel_consumption_l_per_day : ℚ
  distance_to_residential_m : ℚ
  vegetation_removed_percent : ℚ
  avg_noise_db : ℚ
  near_sensitive_zone : ℤ
  baseline_pm25 : ℚ
  baseline_no2 : ℚ
  baseline_so2 : ℚ
  baseline_co : ℚ
  baseline_o3 : ℚ
  dg_hours_per_day : ℚ
  distance_to_water_body_km : ℚ
  stp_present : ℤ
  has_rainwater_harvesting : ℤ
  waste_segregation : ℤ
  green_area_percent : ℤ
  has_solar : ℤ
  energy_efficient_lighting : ℤ
  rooms : ℤ := 1
deriving DecidableEq

/-- The `breakdown` dict of the response (fixed keys "Air Impact",
"Water Impact", "Land Impact", "Waste Impact", "Noise Impact"). -/
structure Breakdown where
  air : ℚ
  water : ℚ
  land : ℚ
  waste : ℚ
  noise : ℚ
deriving DecidableEq

/-- The `added_pollution` / `final_pollution` dicts (keys "PM2.5" and
"NO2"). -/
structure PollutionPair where
  pm25 : ℚ
  no2 : ℚ
deriving DecidableEq

/-- `ImpactResult` from src/models.py lines 81-88, with the dict fields
given fixed shapes as produced by `calculate_impact`. -/
structure ImpactResult where
  overall_score : ℚ
  impact_class : String
  breakdown : Breakdown
  added_pollution : PollutionPair
  final_pollution : PollutionPair
  recommendations : List String
deriving DecidableEq

/-- Degree-to-radian conversion (`math.radians`). -/
noncomputable def radians (d : ℝ) : ℝ := d * Real.pi / 180

/-- `haversine` from src/main.py lines 54-65: great-circle distance in
km between two points given in decimal degrees. -/
noncomputable def haversine (lon1 lat1 lon2 lat2 : ℝ) : ℝ :=
  2 * Real.arcsin (Real.sqrt
      (Real.sin ((radians lat2 - radians lat1) / 2) ^ 2 +
        Real.cos (radians lat1) * Real.cos (radians lat2) *
          Real.sin ((radians lon2 - radians lon1) / 2) ^ 2)) * 6371

/-- The city key used for lookup: `user_input.city.lower().strip()`
(src/main.py line 77). -/
def normalizeCity (s : String) : String := s.toLower.trim

/-- `CITIES_DB[CITIES_DB['city_lower'] == city_key]` followed by
`.iloc[0]` on a non-empty match: the first row whose `city_lower`
equals the key (src/main.py lines 81-83). -/
def lookupCity (db : List CityRecord) (key : String) : Option CityRecord :=
  db.find? (fun c => c.city_lower == key)

/-- The `city_data` local of `enrich_data`: `None` when the store is
degraded (`CITIES_DB is None`) or the city is not found. -/
def cityDataOf (cities : Option (List CityRecord)) (key : String) :
    Option CityRecord :=
  match cities with
  | none => none
  | some db => lookupCity db key

/-- `lat = city_data['latitude'] if city_data is not None else
defaults['lat']` (src/main.py line 86, fallback 20.5937). -/
def resolveLat (cd : Option CityRecord) : ℚ :=
  match cd with
  | some c => c.latitude
  | none => 20.5937

/-- `lng = city_data['longitude'] if city_data is not None else
defaults['lng']` (src/main.py line 87, fallback 78.9629). -/
def resolveLng (cd : Option CityRecord) : ℚ :=
  match cd with
  | some c => c.longitude
  | none => 78.9629

open Classical in
/-- The proximity loop of `enrich_data` (src/main.py lines 93-97):
walk the sensitive-zone rows, return 1 on the first row within 5 km of
the resolved city coordinates, else 0. -/
noncomputable def scanZones (lat lng : ℚ) : List SensitiveZone → ℤ
  | [] => 0
  | z :: rest =>
      if haversine (lng : ℝ) (lat : ℝ) (z.lng : ℝ) (z.lat : ℝ) < 5 then 1
      else scanZones lat lng rest

/-- `enrich_data` from src/main.py lines 67-134, parameterized by the
two reference stores (each `none` when the startup load failed). -/
noncomputable def enrich_data (cities : Option (List CityRecord))
    (locs : Option (List SensitiveZone)) (u : UserInput) :
    EnrichedProjectInput :=
  let city_data := cityDataOf cities (normalizeCity u.city)
  let lat := resolveLat city_data
  let lng := resolveLng city_data
  let near_sensitive : ℤ :=
    match locs with
    | none => 0
    | some zs => scanZones lat lng zs
  let base_noise : ℚ :=
    if u.project_type = "Industrial" then 75
    else if u.project_type = "Commercial" then 65
    else 50
  { land_area_m2 := u.land_area_m2
    built_up_area_m2 := u.built_up_area_m2
    floors := u.floors
    daily_water_m3 := u.daily_water_m3
    daily_waste_kg := u.daily_waste_kg
    hazardous_waste_kg_per_month := u.hazardous_waste_kg_per_month
    vehicles_per_day := u.vehicles_per_day
    fuel_consumption_l_per_day := u.fuel_consumption_l_per_day
    distance_to_residential_m := u.distance_to_residential_m
    vegetation_removed_percent := u.vegetation_removed_percent
    avg_noise_db := base_noise
    near_sensitive_zone := near_sensitive
    baseline_pm25 := match city_data with | some c => c.pm25 | none => 100
    baseline_no2 := match city_data with | some c => c.no2 | none => 40
    baseline_so2 := match city_data with | some c => c.so2 | none => 15
    baseline_co := match city_data with | some c => c.co_mg_m3 | none => 1.5
    baseline_o3 := match city_data with | some c => c.o3 | none => 30
    dg_hours_per_day := u.dg_hours_per_day
    distance_to_water_body_km := u.distance_to_water_body_km
    stp_present := u.stp_present
    has_rainwater_harvesting := u.has_rainwater_harvesting
    waste_segregation := u.waste_segregation
    green_area_percent := pyInt u.green_area_percent
    has_solar := u.has_solar
    energy_efficient_lighting := u.energy_efficient_lighting }

/-- `added_pm25` (src/main.py line 179). -/
def added_pm25 (d : EnrichedProjectInput) : ℚ :=
  ((d.vehicles_per_day : ℚ) * 0.5 + d.fuel_consumption_l_per_day * 2) / 1000

/-- `added_no2` (src/main.py line 180). -/
def added_no2 (d : EnrichedProjectInput) : ℚ :=
  ((d.vehicles_per_day : ℚ) * 0.2 + d.fuel_consumption_l_per_day * 20) / 1000

/-- `construction_dust` (src/main.py line 183): computed, then never
read again. -/
def construction_dust (d : EnrichedProjectInput) : ℚ :=
  d.built_up_area_m2 * 0.0001 * (1 + d.vegetation_removed_percent / 100)

/-- `final_pm25` (src/main.py line 186). -/
def final_pm25 (d : EnrichedProjectInput) : ℚ :=
  d.baseline_pm25 + added_pm25 d * 50

/-- `final_no2` (src/main.py line 187). -/
def final_no2 (d : EnrichedProjectInput) : ℚ :=
  d.baseline_no2 + added_no2 d * 50

/-- Air sub-score (src/main.py lines 195-196). -/
def air_score (d : EnrichedProjectInput) : ℚ :=
  min 100 (final_pm25 d / 250 * 50 + final_no2 d / 100 * 30 +
    d.dg_hours_per_day * 2)

/-- Water sub-score (src/main.py lines 204-212). -/
def water_score (d : EnrichedProjectInput) : ℚ :=
  let persons : ℚ := max 1 (d.built_up_area_m2 / 15)
  let lpcd : ℚ := d.daily_water_m3 * 1000 / persons
  let w : ℚ :=
    (if lpcd > 150 then (40 : ℚ) else 0) +
    (if d.distance_to_water_body_km < 0.5 then (40 : ℚ) else 0) +
    (if d.stp_present = 0 then (20 : ℚ) else 0) -
    (if d.has_rainwater_harvesting = 1 then (10 : ℚ) else 0)
  max 0 (min 100 w)

/-- Waste sub-score (src/main.py lines 215-217). -/
def waste_score (d : EnrichedProjectInput) : ℚ :=
  min 100 (d.daily_waste_kg / 100 * 10 + d.hazardous_waste_kg_per_month * 2 +
    (if d.waste_segregation = 0 then (20 : ℚ) else 0))

/-- Land/bio sub-score (src/main.py lines 220-223). -/
def land_score (d : EnrichedProjectInput) : ℚ :=
  min 100 (d.vegetation_removed_percent +
    (if d.near_sensitive_zone = 1 then (40 : ℚ) else 0) +
    (if d.green_area_percent < 10 then (20 : ℚ) else 0))

/-- Noise sub-score (src/main.py lines 226-229). -/
def noise_score (d : EnrichedProjectInput) : ℚ :=
  min 100 (max 0 ((d.avg_noise_db - 45) * 2) +
    (if d.distance_to_residential_m < 50 then (20 : ℚ) else 0))

/-- Weighted overall score (src/main.py line 233). -/
def overall_score_of (d : EnrichedProjectInput) : ℚ :=
  air_score d * 0.3 + water_score d * 0.25 + land_score d * 0.2 +
    waste_score d * 0.15 + noise_score d * 0.10

/-- Category label (src/main.py lines 244-246). -/
def classify (s : ℚ) : String :=
  if s > 60 then "High" else if s > 30 then "Moderate" else "Low"

/-- The recommendation rules (src/main.py lines 236-241), in source
order, as a function of the already-computed sub-scores and flags. -/
def recommendations_of (air water land : ℚ)
    (has_solar energy_efficient_lighting : ℤ) : List String :=
  (if air > 50 then
    ["High Air Pollution risk: Install Air Purifiers and Smog Towers."]
   else []) ++
  (if water > 50 then
    ["Critical Water usage: Mandate STP and Rainwater Harvesting."]
   else []) ++
  (if land > 50 then
    ["High ecological impact: Increase Green Belt area > 30%."]
   else []) ++
  (if has_solar = 0 then
    ["Energy: Install Solar Panels to reduce carbon footprint."]
   else []) ++
  (if energy_efficient_lighting = 0 then
    ["Energy: Switch to LED lighting."]
   else [])

set_option linter.unusedVariables false in
/-- The scoring body of `calculate_impact` (src/main.py lines 177-267)
applied to an already-enriched record. -/
def calcFromEnriched (d : EnrichedProjectInput) : ImpactResult :=
  let dust := construction_dust d
  { overall_score := pyRound (overall_score_of d) 1
    impact_class := classify (overall_score_of d)
    breakdown :=
      { air := pyRound (air_score d) 1
        water := pyRound (water_score d) 1
        land := pyRound (land_score d) 1
        waste := pyRound (waste_score d) 1
        noise := pyRound (noise_score d) 1 }
    added_pollution :=
      { pm25 := pyRound (added_pm25 d) 4
        no2 := pyRound (added_no2 d) 4 }
    final_pollution :=
      { pm25 := pyRound (final_pm25 d) 2
        no2 := pyRound (final_no2 d) 2 }
    recommendations :=
      recommendations_of (air_score d) (water_score d) (land_score d)
        d.has_solar d.energy_efficient_lighting }

/-- The same scoring body with the dead `construction_dust` line
removed. -/
def calcFromEnrichedNoDust (d : EnrichedProjectInput) : ImpactResult :=
  { overall_score := pyRound (overall_score_of d) 1
    impact_class := classify (overall_score_of d)
    breakdown :=
      { air := pyRound (air_score d) 1
        water := pyRound (water_score d) 1
        land := pyRound (land_score d) 1
        waste := pyRound (waste_score d) 1
        noise := pyRound (noise_score d) 1 }
    added_pollution :=
      { pm25 := pyRound (added_pm25 d) 4
        no2 := pyRound (added_no2 d) 4 }
    final_pollution :=
      { pm25 := pyRound (final_pm25 d) 2
        no2 := pyRound (final_no2 d) 2 }
    recommendations :=
      recommendations_of (air_score d) (water_score d) (land_score d)
        d.has_solar d.energy_efficient_lighting }

/-- The `/calculate-impact` endpoint body (src/main.py lines 172-267):
enrich, then score.  No validation of the raw input happens before
enrichment. -/
noncomputable def calculate_impact (cities : Option (List CityRecord))
    (locs : Option (List SensitiveZone)) (u : UserInput) : ImpactResult :=
  calcFromEnriched (enrich_data cities locs u)

/-- The endpoint with the dead `construction_dust` computation removed
from the scoring body. -/
noncomputable def calculate_impact_noDust (cities : Option (List CityRecord))
    (locs : Option (List SensitiveZone)) (u : UserInput) : ImpactResult :=
  calcFromEnrichedNoDust (enrich_data cities locs u)

/-- The §3 invariant of the raw record: every numeric field is
non-negative. -/
def ValidInput (u : UserInput) : Prop :=
  0 ≤ u.land_area_m2 ∧ 0 ≤ u.built_up_area_m2 ∧ 0 ≤ u.floors ∧
  0 ≤ u.daily_water_m3 ∧ 0 ≤ u.daily_waste_kg ∧
  0 ≤ u.hazardous_waste_kg_per_month ∧ 0 ≤ u.vehicles_per_day ∧
  0 ≤ u.fuel_consumption_l_per_day ∧ 0 ≤ u.dg_hours_per_day ∧
  0 ≤ u.distance_to_residential_m ∧ 0 ≤ u.distance_to_water_body_km ∧
  0 ≤ u.vegetation_removed_percent ∧ 0 ≤ u.green_area_percent

instance (u : UserInput) : Decidable (ValidInput u) := by
  unfold ValidInput; infer_instance

/-- Non-negative pollutant baselines in a city row. -/
def ValidCity (c : CityRecord) : Prop :=
  0 ≤ c.pm25 ∧ 0 ≤ c.no2 ∧ 0 ≤ c.so2 ∧ 0 ≤ c.co_mg_m3 ∧ 0 ≤ c.o3

instance (c : CityRecord) : Decidable (ValidCity c) := by
  unfold ValidCity; infer_instance


/-- A raw input with a negative land area and otherwise benign values;
no validation in the engine ever inspects it. -/
def negU : UserInput :=
  { city := "nowhere", land_area_m2 := -100, built_up_area_m2 := 0, floors := 0,
    daily_water_m3 := 0, daily_waste_kg := 0, hazardous_waste_kg_per_month := 0,
    vehicles_per_day := 0, fuel_consumption_l_per_day := 0, dg_hours_per_day := 0,
    distance_to_residential_m := 100, distance_to_water_body_km := 1 }

/-- The enriched record the engine builds for `negU` with both
reference stores degraded. -/
def eNeg : EnrichedProjectInput :=
  { land_area_m2 := -100, built_up_area_m2 := 0, floors := 0, daily_water_m3 := 0,
    daily_waste_kg := 0, hazardous_waste_kg_per_month := 0, vehicles_per_day := 0,
    fuel_consumption_l_per_day := 0, distance_to_residential_m := 100,
    vegetation_removed_percent := 0, avg_noise_db := 50, near_sensitive_zone := 0,
    baseline_pm25 := 100, baseline_no2 := 40, baseline_so2 := 15, baseline_co := 1.5,
    baseline_o3 := 30, dg_hours_per_day := 0, distance_to_water_body_km := 1,
    stp_present := 0, has_rainwater_harvesting := 0, waste_segregation := 0,
    green_area_percent := 0, has_solar := 0, energy_efficient_lighting := 0 }

/-- A raw input naming a city that is in no city table. -/
def uAtlantis : UserInput :=
  { city := "Atlantis", land_area_m2 := 1000, built_up_area_m2 := 600, floors := 2,
    daily_water_m3 := 5, daily_waste_kg := 10, hazardous_waste_kg_per_month := 0,
    vehicles_per_day := 20, fuel_consumption_l_per_day := 4, dg_hours_per_day := 1,
    distance_to_residential_m := 200, distance_to_water_body_km := 2 }

/-- An enriched record matching the water sub-score example of the spec
(built-up 1500 m², 20 m³/day, 0.3 km to water, no STP, no rainwater
harvesting). -/
def dWater : EnrichedProjectInput :=
  { land_area_m2 := 2000, built_up_area_m2 := 1500, floors := 3, daily_water_m3 := 20,
    daily_waste_kg := 50, hazardous_waste_kg_per_month := 0, vehicles_per_day := 10,
    fuel_consumption_l_per_day := 5, distance_to_residential_m := 100,
    vegetation_removed_percent := 10, avg_noise_db := 50, near_sensitive_zone := 0,
    baseline_pm25 := 100, baseline_no2 := 40, baseline_so2 := 15, baseline_co := 1.5,
    baseline_o3 := 30, dg_hours_per_day := 0, distance_to_water_body_km := 0.3,
    stp_present := 0, has_rainwater_harvesting := 0, waste_segregation := 1,
    green_area_percent := 20, has_solar := 1, energy_efficient_lighting := 1 }

/-- A raw input with a fractional green-area percentage of 9.9. -/
def uGreen99 : UserInput :=
  { city := "nowhere", land_area_m2 := 1000, built_up_area_m2 := 500, floors := 1,
    daily_water_m3 := 2, daily_waste_kg := 5, hazardous_waste_kg_per_month := 0,
    vehicles_per_day := 5, fuel_consumption_l_per_day := 1, dg_hours_per_day := 0,
    distance_to_residential_m := 100, distance_to_water_body_km := 1,
    vegetation_removed_percent := 0, green_area_percent := 9.9 }

/-- The same raw input with a green-area percentage of exactly 10. -/
def uGreen10 : UserInput :=
  { city := "nowhere", land_area_m2 := 1000, built_up_area_m2 := 500, floors := 1,
    daily_water_m3 := 2, daily_waste_kg := 5, hazardous_waste_kg_per_month := 0,
    vehicles_per_day := 5, fuel_consumption_l_per_day := 1, dg_hours_per_day := 0,
    distance_to_residential_m := 100, distance_to_water_body_km := 1,
    vegetation_removed_percent := 0, green_area_percent := 10.0 }

/-- A raw input satisfying the §3 invariant (all numeric fields
non-negative). -/
def uValid : UserInput :=
  { city := "delhi", land_area_m2 := 5000, built_up_area_m2 := 3000, floors := 4,
    daily_water_m3 := 15, daily_waste_kg := 60, hazardous_waste_kg_per_month := 2,
    vehicles_per_day := 40, fuel_consumption_l_per_day := 8, dg_hours_per_day := 2,
    distance_to_residential_m := 120, distance_to_water_body_km := 3,
    vegetation_removed_percent := 25, green_area_percent := 15 }

lemma roundHalfEven_nonneg (q : ℚ) (h : 0 ≤ q) : 0 ≤ roundHalfEven q := by
  have h0 : (0 : ℤ) ≤ ⌊q⌋ := Int.floor_nonneg.mpr h
  unfold roundHalfEven
  split_ifs <;> omega

lemma roundHalfEven_le (q : ℚ) (n : ℤ) (h : q ≤ (n : ℚ)) : roundHalfEven q ≤ n := by
  have hfl : ⌊q⌋ ≤ n := by
    have := Int.floor_le_floor h
    simpa using this
  unfold roundHalfEven
  split_ifs with h1 h2 h3
  · exact hfl
  all_goals {
    have hq : (⌊q⌋ : ℚ) < q := by
      have := not_lt.mp h1
      linarith
    have hlt : ⌊q⌋ < n := by
      have : (⌊q⌋ : ℚ) < (n : ℚ) := lt_of_lt_of_le hq h
      exact_mod_cast this
    omega }

lemma pyRound_nonneg (q : ℚ) (d : ℕ) (h : 0 ≤ q) : 0 ≤ pyRound q d := by
  unfold pyRound
  have h1 : 0 ≤ roundHalfEven (q * 10 ^ d) :=
    roundHalfEven_nonneg _ (by positivity)
  have h2 : (0 : ℚ) ≤ (roundHalfEven (q * 10 ^ d) : ℚ) := by exact_mod_cast h1
  positivity

lemma pyRound_le_100 (q : ℚ) (d : ℕ) (h : q ≤ 100) : pyRound q d ≤ 100 := by
  unfold pyRound
  rw [div_le_iff₀ (by positivity)]
  have h1 : q * 10 ^ d ≤ ((100 * 10 ^ d : ℤ) : ℚ) := by
    push_cast
    exact mul_le_mul_of_nonneg_right h (by positivity)
  have h2 := roundHalfEven_le _ _ h1
  calc (roundHalfEven (q * 10 ^ d) : ℚ) ≤ ((100 * 10 ^ d : ℤ) : ℚ) := by exact_mod_cast h2
    _ = 100 * 10 ^ d := by push_cast; ring

lemma air_score_le (d : EnrichedProjectInput) : air_score d ≤ 100 := min_le_left _ _

lemma air_score_nonneg (d : EnrichedProjectInput) (hpm : 0 ≤ d.baseline_pm25)
    (hno : 0 ≤ d.baseline_no2) (hv : 0 ≤ (d.vehicles_per_day : ℚ))
    (hf : 0 ≤ d.fuel_consumption_l_per_day) (hdg : 0 ≤ d.dg_hours_per_day) :
    0 ≤ air_score d := by
  unfold air_score final_pm25 final_no2 added_pm25 added_no2
  refine le_min (by norm_num) ?_
  nlinarith

lemma water_score_bounds (d : EnrichedProjectInput) :
    0 ≤ water_score d ∧ water_score d ≤ 100 :=
  ⟨le_max_left _ _, max_le (by norm_num) (min_le_left _ _)⟩

lemma waste_score_bounds (d : EnrichedProjectInput) (hw : 0 ≤ d.daily_waste_kg)
    (hh : 0 ≤ d.hazardous_waste_kg_per_month) :
    0 ≤ waste_score d ∧ waste_score d ≤ 100 := by
  constructor
  · unfold waste_score
    refine le_min (by norm_num) ?_
    split_ifs <;> nlinarith
  · exact min_le_left _ _

lemma land_score_bounds (d : EnrichedProjectInput)
    (hv : 0 ≤ d.vegetation_removed_percent) :
    0 ≤ land_score d ∧ land_score d ≤ 100 := by
  constructor
  · unfold land_score
    refine le_min (by norm_num) ?_
    split_ifs <;> linarith
  · exact min_le_left _ _

lemma noise_score_bounds (d : EnrichedProjectInput) :
    0 ≤ noise_score d ∧ noise_score d ≤ 100 := by
  constructor
  · unfold noise_score
    refine le_min (by norm_num) ?_
    have h1 : (0 : ℚ) ≤ max 0 ((d.avg_noise_db - 45) * 2) := le_max_left _ _
    split_ifs <;> linarith
  · exact min_le_left _ _

lemma overall_score_bounds (d : EnrichedProjectInput)
    (ha : 0 ≤ air_score d) (hws : 0 ≤ waste_score d)
    (hl : 0 ≤ land_score d) :
    0 ≤ overall_score_of d ∧ overall_score_of d ≤ 100 := by
  have h2 := water_score_bounds d
  have h5 := noise_score_bounds d
  have h1 := air_score_le d
  have h4 : waste_score d ≤ 100 := min_le_left _ _
  have h3 : land_score d ≤ 100 := min_le_left _ _
  unfold overall_score_of
  constructor <;> nlinarith [h2.1, h2.2, h5.1, h5.2]

lemma cityDataOf_mem {cs : Option (List CityRecord)} {key : String}
    {c : CityRecord} (h : cityDataOf cs key = some c) : c ∈ cs.getD [] := by
  cases cs with
  | none => exact absurd h (by simp [cityDataOf])
  | some db => exact List.mem_of_find?_eq_some h

lemma enrich_baseline_pm25_nonneg (cs : Option (List CityRecord))
    (ls : Option (List SensitiveZone)) (u : UserInput)
    (hcs : ∀ c ∈ cs.getD [], ValidCity c) :
    0 ≤ (enrich_data cs ls u).baseline_pm25 := by
  have h : (enrich_data cs ls u).baseline_pm25 =
      (match cityDataOf cs (normalizeCity u.city) with
       | some c => c.pm25 | none => (100 : ℚ)) := rfl
  rcases hcd : cityDataOf cs (normalizeCity u.city) with _ | c
  · rw [h, hcd]; norm_num
  · rw [h, hcd]
    exact (hcs c (cityDataOf_mem hcd)).1

lemma enrich_baseline_no2_nonneg (cs : Option (List CityRecord))
    (ls : Option (List SensitiveZone)) (u : UserInput)
    (hcs : ∀ c ∈ cs.getD [], ValidCity c) :
    0 ≤ (enrich_data cs ls u).baseline_no2 := by
  have h : (enrich_data cs ls u).baseline_no2 =
      (match cityDataOf cs (normalizeCity u.city) with
       | some c => c.no2 | none => (40 : ℚ)) := rfl
  rcases hcd : cityDataOf cs (normalizeCity u.city) with _ | c
  · rw [h, hcd]; norm_num
  · rw [h, hcd]
    exact (hcs c (cityDataOf_mem hcd)).2.1

/-- Claim C1 (counterexample): the engine does not reject a raw input
with a negative numeric field.  For `negU` (land area -100 m²) the
pipeline runs enrichment and produces a complete `ImpactResult` with
overall score 22.6, class "Low" and two recommendations, refuting
"the engine rejects the request as InvalidInput at the boundary ... no
ImpactResult is produced for such an input". -/
theorem negative_input_yields_result :
    negU.land_area_m2 < 0 ∧
    (calculate_impact none none negU).overall_score = 22.6 ∧
    (calculate_impact none none negU).impact_class = "Low" ∧
    (calculate_impact none none negU).breakdown.air = 32 ∧
    (calculate_impact none none negU).recommendations =
      ["Energy: Install Solar Panels to reduce carbon footprint.",
       "Energy: Switch to LED lighting."] := by
  have he : enrich_data none none negU = eNeg := rfl
  have ha : air_score eNeg = 32 := by
    norm_num [air_score, final_pm25, final_no2, added_pm25, added_no2, eNeg, min_def]
  have hw : water_score eNeg = 20 := by
    norm_num [water_score, eNeg, min_def, max_def]
  have hws : waste_score eNeg = 20 := by
    norm_num [waste_score, eNeg, min_def]
  have hl : land_score eNeg = 20 := by
    norm_num [land_score, eNeg, min_def]
  have hn : noise_score eNeg = 10 := by
    norm_num [noise_score, eNeg, min_def, max_def]
  have hov : overall_score_of eNeg = 113/5 := by
    norm_num [overall_score_of, ha, hw, hws, hl, hn]
  refine ⟨by decide, ?_, ?_, ?_, ?_⟩
  · show pyRound (overall_score_of (enrich_data none none negU)) 1 = 22.6
    rw [he, hov]
    norm_num [pyRound, roundHalfEven]
  · show classify (overall_score_of (enrich_data none none negU)) = "Low"
    rw [he, hov]
    norm_num [classify]
  · show pyRound (air_score (enrich_data none none negU)) 1 = 32
    rw [he, ha]
    norm_num [pyRound, roundHalfEven]
  · show recommendations_of (air_score (enrich_data none none negU))
        (water_score (enrich_data none none negU))
        (land_score (enrich_data none none negU))
        (enrich_data none none negU).has_solar
        (enrich_data none none negU).energy_efficient_lighting = _
    rw [he, ha, hw, hl]
    norm_num [recommendations_of, eNeg]

/-- Claim C1 (amended): for every raw input with any negative numeric
field (land area, built-up area, floors, water use, waste, hazardous
waste, vehicle count, fuel, generator hours, distances, vegetation
removal or green area) and under every reference-store state, nothing
is validated or rejected; `calculate_impact` runs enrichment on the
input and produces an `ImpactResult` carrying one of the three
category labels. -/
theorem no_boundary_validation (cs : Option (List CityRecord))
    (ls : Option (List SensitiveZone)) (u : UserInput)
    (_h : u.land_area_m2 < 0 ∨ u.built_up_area_m2 < 0 ∨ u.floors < 0 ∨
      u.daily_water_m3 < 0 ∨ u.daily_waste_kg < 0 ∨
      u.hazardous_waste_kg_per_month < 0 ∨ u.vehicles_per_day < 0 ∨
      u.fuel_consumption_l_per_day < 0 ∨ u.dg_hours_per_day < 0 ∨
      u.distance_to_residential_m < 0 ∨ u.distance_to_water_body_km < 0 ∨
      u.vegetation_removed_percent < 0 ∨ u.green_area_percent < 0) :
    (calculate_impact cs ls u).impact_class = "Low" ∨
    (calculate_impact cs ls u).impact_class = "Moderate" ∨
    (calculate_impact cs ls u).impact_class = "High" := by
  have hc : (calculate_impact cs ls u).impact_class =
      classify (overall_score_of (enrich_data cs ls u)) := rfl
  rw [hc]
  unfold classify
  split_ifs <;> simp

/-- Claim C1 (witness for the amended theorem) at the concrete negative
input `negU` with degraded stores. -/
theorem no_boundary_validation_witness :
    (negU.land_area_m2 < 0 ∨ negU.built_up_area_m2 < 0 ∨ negU.floors < 0 ∨
      negU.daily_water_m3 < 0 ∨ negU.daily_waste_kg < 0 ∨
      negU.hazardous_waste_kg_per_month < 0 ∨ negU.vehicles_per_day < 0 ∨
      negU.fuel_consumption_l_per_day < 0 ∨ negU.dg_hours_per_day < 0 ∨
      negU.distance_to_residential_m < 0 ∨ negU.distance_to_water_body_km < 0 ∨
      negU.vegetation_removed_percent < 0 ∨ negU.green_area_percent < 0) ∧
    ((calculate_impact none none negU).impact_class = "Low" ∨
     (calculate_impact none none negU).impact_class = "Moderate" ∨
     (calculate_impact none none negU).impact_class = "High") :=
  ⟨by decide, no_boundary_validation none none negU (by decide)⟩

/-- Claim C2: for every raw input whose numeric fields are all
non-negative and every city table whose baselines are non-negative, the
five reported sub-scores and the reported overall score of
`calculate_impact` all lie in [0, 100]. -/
theorem scores_within_range (cs : Option (List CityRecord))
    (ls : Option (List SensitiveZone)) (u : UserInput)
    (hu : ValidInput u) (hcs : ∀ c ∈ cs.getD [], ValidCity c) :
    (0 ≤ (calculate_impact cs ls u).breakdown.air ∧
      (calculate_impact cs ls u).breakdown.air ≤ 100) ∧
    (0 ≤ (calculate_impact cs ls u).breakdown.water ∧
      (calculate_impact cs ls u).breakdown.water ≤ 100) ∧
    (0 ≤ (calculate_impact cs ls u).breakdown.land ∧
      (calculate_impact cs ls u).breakdown.land ≤ 100) ∧
    (0 ≤ (calculate_impact cs ls u).breakdown.waste ∧
      (calculate_impact cs ls u).breakdown.waste ≤ 100) ∧
    (0 ≤ (calculate_impact cs ls u).breakdown.noise ∧
      (calculate_impact cs ls u).breakdown.noise ≤ 100) ∧
    (0 ≤ (calculate_impact cs ls u).overall_score ∧
      (calculate_impact cs ls u).overall_score ≤ 100) := by
  obtain ⟨q1, q2, q3, q4, q5, q6, q7, q8, q9, q10, q11, q12, q13⟩ := hu
  have hv : 0 ≤ ((enrich_data cs ls u).vehicles_per_day : ℚ) := by
    have : (enrich_data cs ls u).vehicles_per_day = u.vehicles_per_day := rfl
    rw [this]; exact_mod_cast q7
  have hf : 0 ≤ (enrich_data cs ls u).fuel_consumption_l_per_day := q8
  have hdg : 0 ≤ (enrich_data cs ls u).dg_hours_per_day := q9
  have hwst : 0 ≤ (enrich_data cs ls u).daily_waste_kg := q5
  have hhz : 0 ≤ (enrich_data cs ls u).hazardous_waste_kg_per_month := q6
  have hveg : 0 ≤ (enrich_data cs ls u).vegetation_removed_percent := q12
  have hpm := enrich_baseline_pm25_nonneg cs ls u hcs
  have hno := enrich_baseline_no2_nonneg cs ls u hcs
  have ha0 := air_score_nonneg _ hpm hno hv hf hdg
  have ha1 := air_score_le (enrich_data cs ls u)
  have hw := water_score_bounds (enrich_data cs ls u)
  have hws := waste_score_bounds _ hwst hhz
  have hl := land_score_bounds _ hveg
  have hn := noise_score_bounds (enrich_data cs ls u)
  have hov := overall_score_bounds _ ha0 hws.1 hl.1
  exact ⟨⟨pyRound_nonneg _ _ ha0, pyRound_le_100 _ _ ha1⟩,
    ⟨pyRound_nonneg _ _ hw.1, pyRound_le_100 _ _ hw.2⟩,
    ⟨pyRound_nonneg _ _ hl.1, pyRound_le_100 _ _ hl.2⟩,
    ⟨pyRound_nonneg _ _ hws.1, pyRound_le_100 _ _ hws.2⟩,
    ⟨pyRound_nonneg _ _ hn.1, pyRound_le_100 _ _ hn.2⟩,
    ⟨pyRound_nonneg _ _ hov.1, pyRound_le_100 _ _ hov.2⟩⟩

/-- Claim C2 (witness): the range theorem applied to the concrete valid
input `uValid` with a degraded city store. -/
theorem scores_within_range_witness :
    ValidInput uValid ∧
    (∀ c ∈ (none : Option (List CityRecord)).getD [], ValidCity c) ∧
    ((0 ≤ (calculate_impact none none uValid).breakdown.air ∧
      (calculate_impact none none uValid).breakdown.air ≤ 100) ∧
     (0 ≤ (calculate_impact none none uValid).breakdown.water ∧
      (calculate_impact none none uValid).breakdown.water ≤ 100) ∧
     (0 ≤ (calculate_impact none none uValid).breakdown.land ∧
      (calculate_impact none none uValid).breakdown.land ≤ 100) ∧
     (0 ≤ (calculate_impact none none uValid).breakdown.waste ∧
      (calculate_impact none none uValid).breakdown.waste ≤ 100) ∧
     (0 ≤ (calculate_impact none none uValid).breakdown.noise ∧
      (calculate_impact none none uValid).breakdown.noise ≤ 100) ∧
     (0 ≤ (calculate_impact none none uValid).overall_score ∧
      (calculate_impact none none uValid).overall_score ≤ 100)) :=
  ⟨by decide, by simp, scores_within_range none none uValid (by decide) (by simp)⟩

/-- Claim C3: the category label is "High" exactly when the unrounded
overall score exceeds 60, "Moderate" exactly when it is in (30, 60],
and "Low" exactly when it is at most 30; in particular 30 maps to
"Low", 60 to "Moderate", 30.01 to "Moderate" and 60.01 to "High", and
`calculate_impact` labels with `classify` applied to the unrounded
overall score. -/
theorem category_thresholds :
    (∀ s : ℚ, (classify s = "High" ↔ 60 < s) ∧
      (classify s = "Moderate" ↔ 30 < s ∧ s ≤ 60) ∧
      (classify s = "Low" ↔ s ≤ 30)) ∧
    classify 30 = "Low" ∧ classify 60 = "Moderate" ∧
    classify (30.01 : ℚ) = "Moderate" ∧ classify (60.01 : ℚ) = "High" ∧
    ∀ cs ls u, (calculate_impact cs ls u).impact_class =
      classify (overall_score_of (enrich_data cs ls u)) := by
  refine ⟨fun s => ?_, by norm_num [classify], by norm_num [classify],
    by norm_num [classify], by norm_num [classify], fun cs ls u => rfl⟩
  unfold classify
  split_ifs with h1 h2
  · refine ⟨by simpa using h1, ?_, ?_⟩
    · simp only [String.reduceEq, false_iff, not_and, not_le]
      intro _
      linarith
    · simp only [String.reduceEq, false_iff, not_le]
      linarith
  · refine ⟨?_, ?_, ?_⟩
    · simp only [String.reduceEq, false_iff, not_lt]
      linarith
    · simp only [String.reduceEq, true_iff]
      exact ⟨h2, not_lt.mp h1⟩
    · simp only [String.reduceEq, false_iff, not_le]
      linarith
  · refine ⟨?_, ?_, ?_⟩
    · simp only [String.reduceEq, false_iff, not_lt]
      linarith
    · simp only [String.reduceEq, false_iff, not_and, not_le]
      intro h3
      linarith
    · simp only [String.reduceEq, true_iff]
      linarith

/-- Claim C4: when the (trimmed, lower-cased) city name resolves to no
city row, enrichment uses exactly the fallback coordinates
(20.5937, 78.9629) and the fallback baselines PM2.5=100, NO2=40,
SO2=15, CO=1.5, O3=30. -/
theorem unknown_city_fallback (cs : Option (List CityRecord))
    (ls : Option (List SensitiveZone)) (u : UserInput)
    (h : cityDataOf cs (normalizeCity u.city) = none) :
    resolveLat (cityDataOf cs (normalizeCity u.city)) = 20.5937 ∧
    resolveLng (cityDataOf cs (normalizeCity u.city)) = 78.9629 ∧
    (enrich_data cs ls u).baseline_pm25 = 100 ∧
    (enrich_data cs ls u).baseline_no2 = 40 ∧
    (enrich_data cs ls u).baseline_so2 = 15 ∧
    (enrich_data cs ls u).baseline_co = 1.5 ∧
    (enrich_data cs ls u).baseline_o3 = 30 := by
  refine ⟨?_, ?_, ?_, ?_, ?_, ?_, ?_⟩
  · rw [h]; rfl
  · rw [h]; rfl
  · show (match cityDataOf cs (normalizeCity u.city) with
      | some c => c.pm25 | none => (100 : ℚ)) = (100 : ℚ)
    rw [h]
  · show (match cityDataOf cs (normalizeCity u.city) with
      | some c => c.no2 | none => (40 : ℚ)) = (40 : ℚ)
    rw [h]
  · show (match cityDataOf cs (normalizeCity u.city) with
      | some c => c.so2 | none => (15 : ℚ)) = (15 : ℚ)
    rw [h]
  · show (match cityDataOf cs (normalizeCity u.city) with
      | some c => c.co_mg_m3 | none => (1.5 : ℚ)) = (1.5 : ℚ)
    rw [h]
  · show (match cityDataOf cs (normalizeCity u.city) with
      | some c => c.o3 | none => (30 : ℚ)) = (30 : ℚ)
    rw [h]

/-- Claim C4 (witness): the fallback theorem applied to the unknown
city "Atlantis" against an empty city table. -/
theorem unknown_city_fallback_witness :
    cityDataOf (some []) (normalizeCity uAtlantis.city) = none ∧
    (resolveLat (cityDataOf (some []) (normalizeCity uAtlantis.city)) = 20.5937 ∧
     resolveLng (cityDataOf (some []) (normalizeCity uAtlantis.city)) = 78.9629 ∧
     (enrich_data (some []) (some []) uAtlantis).baseline_pm25 = 100 ∧
     (enrich_data (some []) (some []) uAtlantis).baseline_no2 = 40 ∧
     (enrich_data (some []) (some []) uAtlantis).baseline_so2 = 15 ∧
     (enrich_data (some []) (some []) uAtlantis).baseline_co = 1.5 ∧
     (enrich_data (some []) (some []) uAtlantis).baseline_o3 = 30) :=
  ⟨rfl, unknown_city_fallback (some []) (some []) uAtlantis rfl⟩

/-- Claim C5: with both reference stores degraded (failed to load),
every lookup behaves as not-found — `near_sensitive_zone` is 0 and the
fallback baselines are used — enrichment and scoring never fail, and
the whole pipeline behaves exactly as with loaded-but-empty stores, so
a complete `ImpactResult` is produced for every input. -/
theorem degraded_store_behaves_as_not_found (u : UserInput) :
    (enrich_data none none u).near_sensitive_zone = 0 ∧
    (enrich_data none none u).baseline_pm25 = 100 ∧
    (enrich_data none none u).baseline_no2 = 40 ∧
    (enrich_data none none u).baseline_so2 = 15 ∧
    (enrich_data none none u).baseline_co = 1.5 ∧
    (enrich_data none none u).baseline_o3 = 30 ∧
    enrich_data none none u = enrich_data (some []) (some []) u ∧
    calculate_impact none none u = calculate_impact (some []) (some []) u :=
  ⟨rfl, rfl, rfl, rfl, rfl, rfl, rfl, rfl⟩

/-- Claim C6: the great-circle distance is symmetric in its two points,
and zero for identical points. -/
theorem haversine_symm_and_zero :
    (∀ lon1 lat1 lon2 lat2 : ℝ,
      haversine lon1 lat1 lon2 lat2 = haversine lon2 lat2 lon1 lat1) ∧
    (∀ lon lat : ℝ, haversine lon lat lon lat = 0) := by
  have hsin : ∀ a b : ℝ, Real.sin ((a - b) / 2) ^ 2 = Real.sin ((b - a) / 2) ^ 2 := by
    intro a b
    rw [show (a - b) / 2 = -((b - a) / 2) by ring, Real.sin_neg, neg_sq]
  constructor
  · intro lon1 lat1 lon2 lat2
    unfold haversine
    rw [hsin (radians lat2) (radians lat1), hsin (radians lon2) (radians lon1),
      mul_comm (Real.cos (radians lat1)) (Real.cos (radians lat2))]
  · intro lon lat
    unfold haversine
    simp [sub_self]

/-- Claim C7: for an enriched record with built-up area 1500 m², 20
m³/day water, 0.3 km to a water body, no sewage treatment and no
rainwater harvesting, the water sub-score is exactly 100 (raw sum
40+40+20 clamped into [0,100]). -/
theorem water_score_saturates (d : EnrichedProjectInput)
    (h1 : d.built_up_area_m2 = 1500) (h2 : d.daily_water_m3 = 20)
    (h3 : d.distance_to_water_body_km = 0.3) (h4 : d.stp_present = 0)
    (h5 : d.has_rainwater_harvesting = 0) :
    water_score d = 100 := by
  norm_num [water_score, h1, h2, h3, h4, h5, min_def, max_def]

/-- Claim C7 (witness): the saturation theorem at the concrete record
`dWater`. -/
theorem water_score_saturates_witness :
    dWater.built_up_area_m2 = 1500 ∧ dWater.daily_water_m3 = 20 ∧
    dWater.distance_to_water_body_km = 0.3 ∧ dWater.stp_present = 0 ∧
    dWater.has_rainwater_harvesting = 0 ∧ water_score dWater = 100 :=
  ⟨rfl, rfl, rfl, rfl, rfl, water_score_saturates dWater rfl rfl rfl rfl rfl⟩

/-- Claim C8: the recommendation list is the in-order concatenation of
the five rules; for air=70, water=10, land=10, no solar, no efficient
lighting it is exactly [air-mitigation, solar, LED], and
`calculate_impact` produces its list through `recommendations_of` on
the computed sub-scores and flags. -/
theorem recommendation_order :
    recommendations_of 70 10 10 0 0 =
      ["High Air Pollution risk: Install Air Purifiers and Smog Towers.",
       "Energy: Install Solar Panels to reduce carbon footprint.",
       "Energy: Switch to LED lighting."] ∧
    ∀ cs ls u, (calculate_impact cs ls u).recommendations =
      recommendations_of (air_score (enrich_data cs ls u))
        (water_score (enrich_data cs ls u)) (land_score (enrich_data cs ls u))
        (enrich_data cs ls u).has_solar
        (enrich_data cs ls u).energy_efficient_lighting := by
  constructor
  · norm_num [recommendations_of]
  · intro cs ls u; rfl

/-- Claim C9: the `construction_dust` value is computed but never read:
the scoring body with the computation removed produces an identical
`ImpactResult` on every enriched record and every raw input. -/
theorem construction_dust_no_effect :
    (∀ d, calcFromEnriched d = calcFromEnrichedNoDust d) ∧
    (∀ cs ls u, calculate_impact cs ls u = calculate_impact_noDust cs ls u) :=
  ⟨fun _ => rfl, fun _ _ _ => rfl⟩

/-- Claim C10: enrichment truncates the fractional green-area
percentage to an integer (`pyInt`), so the land sub-score's "+20 if
green area < 10" penalty is decided on the truncated value: 9.9 is
treated as 9 and incurs the penalty (land score 20 on an otherwise
zero-impact record), while 10.0 keeps it at 10 and does not (land
score 0). -/
theorem green_area_truncated :
    (∀ cs ls u, (enrich_data cs ls u).green_area_percent = pyInt u.green_area_percent) ∧
    pyInt (9.9 : ℚ) = 9 ∧ pyInt (10.0 : ℚ) = 10 ∧
    (enrich_data (some []) (some []) uGreen99).green_area_percent = 9 ∧
    (enrich_data (some []) (some []) uGreen10).green_area_percent = 10 ∧
    land_score (enrich_data (some []) (some []) uGreen99) = 20 ∧
    land_score (enrich_data (some []) (some []) uGreen10) = 0 := by
  have h99 : (enrich_data (some []) (some []) uGreen99).green_area_percent = 9 := by
    show pyInt (9.9 : ℚ) = 9
    norm_num [pyInt]
  have h10 : (enrich_data (some []) (some []) uGreen10).green_area_percent = 10 := by
    show pyInt (10.0 : ℚ) = 10
    norm_num [pyInt]
  have hv99 : (enrich_data (some []) (some []) uGreen99).vegetation_removed_percent = 0 := rfl
  have hn99 : (enrich_data (some []) (some []) uGreen99).near_sensitive_zone = 0 := rfl
  have hv10 : (enrich_data (some []) (some []) uGreen10).vegetation_removed_percent = 0 := rfl
  have hn10 : (enrich_data (some []) (some []) uGreen10).near_sensitive_zone = 0 := rfl
  refine ⟨fun cs ls u => rfl, by norm_num [pyInt], by norm_num [pyInt], h99, h10, ?_, ?_⟩
  · norm_num [land_score, h99, hv99, hn99, min_def]
  · norm_num [land_score, h10, hv10, hn10, min_def]

end EcoBuild
